import Mathlib

/-!
Shallow embedding of the Orthrus front end (TypeScript/React + Tauri) session
process bridge: the `useSphinx` hook (build-process supervision state), the
`Terminal` component (PTY data/exit event handling, input forwarding, resize
debouncing) and the `App` component (session-id minting and pane rendering),
plus the `mergeConfig` helper.

React `useState` state is modelled as explicit record-passing: each event
handler or async callback becomes a pure function from the previous state (and
the event payload or the `invoke` result, modelled as `Except String α`) to the
next state, paired with the Tauri commands it issues.  JavaScript truthiness of
nullable values is made explicit (`none` and `some 0` / `some ""` are falsy).
-/

namespace Orthrus

/-! ## Configuration data model (src/app/types/config.ts) -/

/-- sphinx-autobuild server settings. -/
structure ServerConfig where
  port : Nat
deriving DecidableEq, Repr

/-- Sphinx-related settings. -/
structure SphinxConfig where
  source_dir : String
  build_dir : String
  server : ServerConfig
  extra_args : List String
deriving DecidableEq, Repr

/-- Python environment settings. -/
structure PythonConfig where
  interpreter : String
deriving DecidableEq, Repr

/-- Editor settings. -/
structure EditorConfig where
  command : String
deriving DecidableEq, Repr

/-- Color scheme (xterm.js ITheme-compatible); every field is optional. -/
structure ColorScheme where
  background : Option String := none
  foreground : Option String := none
  cursor : Option String := none
  cursor_accent : Option String := none
  selection_background : Option String := none
  selection_foreground : Option String := none
  black : Option String := none
  red : Option String := none
  green : Option String := none
  yellow : Option String := none
  blue : Option String := none
  magenta : Option String := none
  cyan : Option String := none
  white : Option String := none
  bright_black : Option String := none
  bright_red : Option String := none
  bright_green : Option String := none
  bright_yellow : Option String := none
  bright_blue : Option String := none
  bright_magenta : Option String := none
  bright_cyan : Option String := none
  bright_white : Option String := none
deriving DecidableEq, Repr

/-- Terminal settings; all fields optional in the source. -/
structure TerminalConfig where
  shell : Option String := none
  font_family : Option String := none
  font_size : Option Nat := none
  theme_file : Option String := none
  color_scheme : Option ColorScheme := none
deriving DecidableEq, Repr

/-- Whole project configuration. -/
structure ProjectConfig where
  sphinx : SphinxConfig
  python : PythonConfig
  editor : EditorConfig
  terminal : TerminalConfig
deriving DecidableEq, Repr

/-! ## Config override and merge (src/app/types/devConfig.ts, `mergeConfig`) -/

/-- Partial override of the server settings. -/
structure ServerOverride where
  port : Option Nat := none
deriving DecidableEq, Repr

/-- Partial override of the Sphinx settings. -/
structure SphinxOverride where
  source_dir : Option String := none
  build_dir : Option String := none
  server : Option ServerOverride := none
  extra_args : Option (List String) := none
deriving DecidableEq, Repr

/-- Partial override of the Python settings. -/
structure PythonOverride where
  interpreter : Option String := none
deriving DecidableEq, Repr

/-- Partial override of the editor settings. -/
structure EditorOverride where
  command : Option String := none
deriving DecidableEq, Repr

/-- Partial override of the terminal settings (only `shell`). -/
structure TerminalOverride where
  shell : Option String := none
deriving DecidableEq, Repr

/-- `ConfigOverride`: partial override of a `ProjectConfig`. -/
structure ConfigOverride where
  sphinx : Option SphinxOverride := none
  python : Option PythonOverride := none
  editor : Option EditorOverride := none
  terminal : Option TerminalOverride := none
deriving DecidableEq, Repr

/-- JS `a ?? b` on an optional-chained field (`undefined` is `none`). -/
def coalesce {α : Type} (a : Option α) (b : α) : α :=
  a.getD b

/-- JS `a ?? b` where `b` is itself possibly `undefined`
(used for `override.terminal?.shell ?? base.terminal.shell`). -/
def coalesceOpt {α : Type} (a b : Option α) : Option α :=
  match a with
  | some v => some v
  | none => b

/-- `mergeConfig(base, override)` from src (devConfig module): identity when
`override` is `undefined`; otherwise rebuilds the config field by field with
`override.x?.y ?? base.x.y`.  Note the rebuilt `terminal` object carries only
`shell`, exactly as the source object literal does. -/
def mergeConfig (base : ProjectConfig) (override : Option ConfigOverride) : ProjectConfig :=
  match override with
  | none => base
  | some o =>
    { sphinx :=
        { source_dir := coalesce (o.sphinx.bind SphinxOverride.source_dir) base.sphinx.source_dir
          build_dir := coalesce (o.sphinx.bind SphinxOverride.build_dir) base.sphinx.build_dir
          server :=
            { port := coalesce ((o.sphinx.bind SphinxOverride.server).bind ServerOverride.port)
                base.sphinx.server.port }
          extra_args := coalesce (o.sphinx.bind SphinxOverride.extra_args) base.sphinx.extra_args }
      python :=
        { interpreter := coalesce (o.python.bind PythonOverride.interpreter) base.python.interpreter }
      editor :=
        { command := coalesce (o.editor.bind EditorOverride.command) base.editor.command }
      terminal :=
        { shell := coalesceOpt (o.terminal.bind TerminalOverride.shell) base.terminal.shell } }

/-! ## useSphinx hook state (src: useSphinx) -/

/-- The three `useState` cells of `useSphinx`:
`port` (number | null), `isRunning` (boolean), `error` (string | null). -/
structure SphinxState where
  port : Option Nat
  isRunning : Bool
  error : Option String
deriving DecidableEq, Repr

/-- `previewUrl = port ? `http://127.0.0.1:${port}` : null`; the JS conditional
tests truthiness of `port`, so both `null` and the number `0` give `null`. -/
def previewUrl (st : SphinxState) : Option String :=
  match st.port with
  | some p => if p != 0 then some ("http://127.0.0.1:" ++ toString p) else none
  | none => none

/-- Handler registered on the `sphinx_started` event: on a matching session id,
set the port to the announced port and the running flag to true; otherwise do
nothing. -/
def handleSphinxStarted (sessionId : String) (st : SphinxState)
    (sid : String) (assignedPort : Nat) : SphinxState :=
  if sid = sessionId then { st with port := some assignedPort, isRunning := true } else st

/-- Handler registered on the `sphinx_error` event: on a matching session id,
record the error message; otherwise do nothing. -/
def handleSphinxError (sessionId : String) (st : SphinxState)
    (sid errorMsg : String) : SphinxState :=
  if sid = sessionId then { st with error := some errorMsg } else st

/-- Handler registered on the `sphinx_built` event (payload is a bare session
id): on a match, clear the recorded error; otherwise do nothing. -/
def handleSphinxBuilt (sessionId : String) (st : SphinxState)
    (payload : String) : SphinxState :=
  if payload = sessionId then { st with error := none } else st

/-- The argument record of the `start_sphinx` Tauri invocation built by
`useSphinx.start`. -/
structure StartSphinxCmd where
  sessionId : String
  projectPath : String
  sourceDir : String
  buildDir : String
  pythonPath : String
  port : Nat
  extraArgs : List String
deriving DecidableEq, Repr

/-- `useSphinx.start`: the state after the async function completes, paired
with the `start_sphinx` invocation it issued (if any).  The guard
`if (!projectPath || !config)` is JS truthiness, so a `null` project path, an
empty-string project path, or a `null` config all take the early-error branch
without invoking.  Otherwise `setError(null)` runs, then `invoke` resolves
(`.ok assignedPort`: port set, running set true) or rejects (`.error e`:
error set to the failure string, running set false, port untouched). -/
def start (sessionId : String) (projectPath : Option String)
    (config : Option ProjectConfig) (invokeResult : Except String Nat)
    (st : SphinxState) : SphinxState × Option StartSphinxCmd :=
  match projectPath, config with
  | some pp, some cfg =>
    if pp = "" then
      ({ st with error := some "Project path or config is missing" }, none)
    else
      let cmd : StartSphinxCmd :=
        { sessionId := sessionId
          projectPath := pp
          sourceDir := cfg.sphinx.source_dir
          buildDir := cfg.sphinx.build_dir
          pythonPath := cfg.python.interpreter
          port := cfg.sphinx.server.port
          extraArgs := cfg.sphinx.extra_args }
      match invokeResult with
      | .ok assignedPort =>
        ({ st with error := none, port := some assignedPort, isRunning := true }, some cmd)
      | .error e =>
        ({ st with error := some e, isRunning := false }, some cmd)
  | _, _ => ({ st with error := some "Project path or config is missing" }, none)

/-- `useSphinx.stop`: await `invoke("stop_sphinx")`; on success clear port,
running flag and error; on failure the catch block records the failure string
as the error and touches nothing else. -/
def stop (invokeResult : Except String Unit) (st : SphinxState) : SphinxState :=
  match invokeResult with
  | .ok _ => { port := none, isRunning := false, error := none }
  | .error e => { st with error := some e }

/-! ## Terminal component (src/app/components/Terminal.tsx) -/

/-- Observable state of the mounted terminal: the sequence of strings written
to the xterm surface and the sequence of exit codes passed to the `onExit`
callback. -/
structure TermState where
  writes : List String
  exitCalls : List Int
deriving DecidableEq, Repr

/-- The inline notice written on `pty_exit`:
`` `\r\n[Process exited with code ${code}]\r\n` ``. -/
def exitNotice (code : Int) : String :=
  "\r\n[Process exited with code " ++ toString code ++ "]\r\n"

/-- Handler registered on the `pty_data` event: on a matching session id, write
the chunk to the terminal verbatim; otherwise do nothing. -/
def handlePtyData (sessionId : String) (t : TermState)
    (sid data : String) : TermState :=
  if sid = sessionId then { t with writes := t.writes ++ [data] } else t

/-- Handler registered on the `pty_exit` event: on a matching session id, write
the exit notice and call `onExit` with the code; otherwise do nothing. -/
def handlePtyExit (sessionId : String) (t : TermState)
    (sid : String) (code : Int) : TermState :=
  if sid = sessionId then
    { t with writes := t.writes ++ [exitNotice code], exitCalls := t.exitCalls ++ [code] }
  else t

/-- The argument record of the `pty_write` Tauri invocation. -/
structure PtyWriteCmd where
  sessionId : String
  data : String
deriving DecidableEq, Repr

/-- One `logger.error` call: the fixed message and the stringified exception. -/
structure LogEntry where
  msg : String
  detail : String
deriving DecidableEq, Repr

/-- `sendData` (the `terminal.onData` callback): issues `pty_write` with the
session id and the chunk untransformed; the `try/catch` turns a rejected invoke
into a `logger.error` call and never rethrows, so the result channel is always
`.ok` (carrying the log entries produced). -/
def sendData (sessionId data : String) (invokeResult : Except String Unit) :
    PtyWriteCmd × Except String (List LogEntry) :=
  ({ sessionId := sessionId, data := data },
    match invokeResult with
    | .ok _ => Except.ok []
    | .error e => Except.ok [{ msg := "Failed to write to PTY:", detail := e }])

/-- The argument record of the `kill_terminal` Tauri invocation. -/
structure KillTerminalCmd where
  sessionId : String
deriving DecidableEq, Repr

/-- The Tauri commands issued by the `useEffect` cleanup when the `Terminal`
component unmounts (after clearing the resize timer, disconnecting the
observer, unlistening and disposing xterm): exactly one `kill_terminal` for the
component's session id. -/
def terminalCleanupCmds (sessionId : String) : List KillTerminalCmd :=
  [{ sessionId := sessionId }]

/-! ## Resize debouncing (`handleResize` in Terminal.tsx)

`handleResize` clears any pending `setTimeout` and arms a fresh 100 ms timer;
the timer callback refits the terminal, reads the current geometry and issues
one `pty_resize`.  We model a trace of resize requests, each stamped with its
arrival time and the container geometry at that moment; a timer armed by a
request fires at `time + 100` unless a later request arrives strictly inside
that window (in which case `clearTimeout` cancels it), and the firing callback
reads the geometry of the request that armed it — the most recent one. -/

/-- A resize request: arrival time (ms) and the geometry the fit would yield. -/
structure ResizeReq where
  time : Nat
  cols : Nat
  rows : Nat
deriving DecidableEq, Repr

/-- An issued `pty_resize` invocation, stamped with the time the debounce timer
fired. -/
structure ResizeCmd where
  sessionId : String
  time : Nat
  cols : Nat
  rows : Nat
deriving DecidableEq, Repr

/-- Debounce semantics of `handleResize` over a time-ordered request trace:
each request arms a timer for `time + 100`; a following request strictly
before that deadline cancels it (`clearTimeout`), otherwise the timer fires and
issues `pty_resize` with the arming request's geometry. -/
def debounceRun (sessionId : String) : List ResizeReq → List ResizeCmd
  | [] => []
  | r :: rest =>
    match rest with
    | [] => [{ sessionId := sessionId, time := r.time + 100, cols := r.cols, rows := r.rows }]
    | r2 :: _ =>
      if r2.time < r.time + 100 then
        debounceRun sessionId rest
      else
        { sessionId := sessionId, time := r.time + 100, cols := r.cols, rows := r.rows }
          :: debounceRun sessionId rest

/-- A trace is a single burst when each request arrives strictly within 100 ms
of its predecessor (so each rearms the pending timer before it fires). -/
def burstWithin : List ResizeReq → Bool
  | [] => true
  | [_] => true
  | r :: r2 :: rest => (r2.time < r.time + 100) && burstWithin (r2 :: rest)

/-! ## App component (src/app/App.tsx) -/

/-- The `App` state cells relevant to session identity: the current session id
and the `exited` flag. -/
structure AppState where
  sessionId : String
  exited : Bool
deriving DecidableEq, Repr

/-- The `useEffect` keyed on `projectPath`: when the (possibly null) project
path is truthy, store a freshly minted UUID as the session id and reset
`exited`; otherwise do nothing.  `newUuid` stands for the value returned by
`crypto.randomUUID()`. -/
def onProjectPathChange (projectPath : Option String) (newUuid : String)
    (s : AppState) : AppState :=
  match projectPath with
  | some pp => if pp != "" then { sessionId := newUuid, exited := false } else s
  | none => s

/-- `handleExit`: the `onExit` callback passed to the terminal ignores the code
and sets `exited` to true. -/
def handleExit (_code : Int) (s : AppState) : AppState :=
  { s with exited := true }

/-- What the right pane renders. -/
inductive RightPane
  | terminal (sessionId : String) (cwd : String)
  | placeholder (text : String)
deriving DecidableEq, Repr

/-- The right pane of the `App` JSX:
`projectPath && !exited ? <Terminal .../> : <div>{exited ? "Terminal session ended" : "Select a project to start terminal"}</div>`. -/
def renderRightPane (projectPath : Option String) (exited : Bool)
    (sessionId : String) : RightPane :=
  match projectPath with
  | some pp =>
    if pp != "" && !exited then .terminal sessionId pp
    else .placeholder
      (if exited then "Terminal session ended" else "Select a project to start terminal")
  | none => .placeholder
      (if exited then "Terminal session ended" else "Select a project to start terminal")

/-! ## Theorems -/

/-- C1: every incoming event (`pty_data`, `pty_exit`, `sphinx_started`,
`sphinx_error`, `sphinx_built`) whose session id differs from the subscriber's
current session id is silently dropped: the terminal state (writes and onExit
calls) and the Sphinx hook state (port, running flag, error) are left exactly
unchanged. -/
theorem foreign_events_dropped (sessionId sid : String) (h : sid ≠ sessionId)
    (t : TermState) (st : SphinxState) (data errMsg : String) (code : Int)
    (assignedPort : Nat) :
    handlePtyData sessionId t sid data = t ∧
    handlePtyExit sessionId t sid code = t ∧
    handleSphinxStarted sessionId st sid assignedPort = st ∧
    handleSphinxError sessionId st sid errMsg = st ∧
    handleSphinxBuilt sessionId st sid = st := by
  refine ⟨?_, ?_, ?_, ?_, ?_⟩ <;>
    simp [handlePtyData, handlePtyExit, handleSphinxStarted, handleSphinxError,
      handleSphinxBuilt, h]

/-- Witness for C1 at concrete inputs. -/
theorem foreign_events_dropped_witness :
    handlePtyData "session-a" ⟨["z"], []⟩ "session-b" "data" = ⟨["z"], []⟩ ∧
    handlePtyExit "session-a" ⟨["z"], []⟩ "session-b" 0 = ⟨["z"], []⟩ ∧
    handleSphinxStarted "session-a" ⟨some 8000, true, none⟩ "session-b" 4000 =
      ⟨some 8000, true, none⟩ ∧
    handleSphinxError "session-a" ⟨some 8000, true, none⟩ "session-b" "boom" =
      ⟨some 8000, true, none⟩ ∧
    handleSphinxBuilt "session-a" ⟨some 8000, true, none⟩ "session-b" =
      ⟨some 8000, true, none⟩ :=
  foreign_events_dropped "session-a" "session-b" (by decide)
    ⟨["z"], []⟩ ⟨some 8000, true, none⟩ "data" "boom" 0 4000

/-- C3: for the matching session id, `sphinx_error` sets only the recorded
error (running flag and port are preserved, so a true running flag stays
true), and a subsequent matching `sphinx_built` clears the error back to
`none` while still preserving the port and running flag. -/
theorem build_error_then_rebuilt (sessionId msg : String) (st : SphinxState) :
    (handleSphinxError sessionId st sessionId msg).error = some msg ∧
    (handleSphinxError sessionId st sessionId msg).isRunning = st.isRunning ∧
    (handleSphinxError sessionId st sessionId msg).port = st.port ∧
    (handleSphinxBuilt sessionId
      (handleSphinxError sessionId st sessionId msg) sessionId).error = none ∧
    (handleSphinxBuilt sessionId
      (handleSphinxError sessionId st sessionId msg) sessionId).isRunning = st.isRunning ∧
    (handleSphinxBuilt sessionId
      (handleSphinxError sessionId st sessionId msg) sessionId).port = st.port := by
  simp [handleSphinxError, handleSphinxBuilt]

/-- C4 counterexample: when the `stop_sphinx` invocation fails, `stop` does
not clear the port, running flag and error — it records the failure string and
leaves the rest untouched, refuting "always clears ... including when the
underlying stop_sphinx invocation fails". -/
theorem stop_failure_not_cleared :
    ¬ (stop (Except.error "stop_sphinx failed") ⟨some 8000, true, none⟩ =
        ⟨none, false, none⟩) := by
  decide

/-- C4 amended: completing `stop` successfully clears the recorded port, the
running flag and the error state; when the `stop_sphinx` invocation fails, the
error state is set to the failure's string form and the port and running flag
are left unchanged. -/
theorem stop_clears_state (st : SphinxState) (e : String) :
    stop (Except.ok ()) st = ⟨none, false, none⟩ ∧
    stop (Except.error e) st = { st with error := some e } := by
  exact ⟨rfl, rfl⟩

/-- C5: a successful `start` records the returned assigned port and sets the
running flag (clearing the error), issuing the `start_sphinx` command built
from the config; a rejected invocation records the failure string, clears the
running flag and leaves the port unchanged; a missing project path or config
issues no command at all and sets only the error state. -/
theorem start_result_handling (sessionId pp : String) (hpp : pp ≠ "")
    (cfg : ProjectConfig) (st : SphinxState) (assignedPort : Nat) (e : String) :
    start sessionId (some pp) (some cfg) (Except.ok assignedPort) st =
      ({ st with error := none, port := some assignedPort, isRunning := true },
        some { sessionId := sessionId, projectPath := pp,
               sourceDir := cfg.sphinx.source_dir, buildDir := cfg.sphinx.build_dir,
               pythonPath := cfg.python.interpreter, port := cfg.sphinx.server.port,
               extraArgs := cfg.sphinx.extra_args }) ∧
    start sessionId (some pp) (some cfg) (Except.error e) st =
      ({ st with error := some e, isRunning := false },
        some { sessionId := sessionId, projectPath := pp,
               sourceDir := cfg.sphinx.source_dir, buildDir := cfg.sphinx.build_dir,
               pythonPath := cfg.python.interpreter, port := cfg.sphinx.server.port,
               extraArgs := cfg.sphinx.extra_args }) ∧
    (start sessionId (some pp) (some cfg) (Except.error e) st).1.port = st.port ∧
    (∀ r c, start sessionId none c r st =
      ({ st with error := some "Project path or config is missing" }, none)) ∧
    (∀ r, start sessionId (some pp) none r st =
      ({ st with error := some "Project path or config is missing" }, none)) := by
  refine ⟨?_, ?_, ?_, ?_, ?_⟩
  · simp [start, hpp]
  · simp [start, hpp]
  · simp [start, hpp]
  · intro r c
    cases c <;> rfl
  · intro r
    rfl

/-- Witness for C5 at concrete inputs. -/
theorem start_result_handling_witness :
    (start "s" (some "/proj")
        (some ⟨⟨"docs", "_build/html", ⟨0⟩, []⟩, ⟨".venv/bin/python"⟩, ⟨"nvim"⟩, {}⟩)
        (Except.ok 4000) ⟨none, false, none⟩ =
      (⟨some 4000, true, none⟩,
        some ⟨"s", "/proj", "docs", "_build/html", ".venv/bin/python", 0, []⟩)) ∧
    (start "s" none none (Except.error "x") ⟨some 1, true, none⟩ =
      (⟨some 1, true, some "Project path or config is missing"⟩, none)) := by
  have h := start_result_handling "s" "/proj" (by decide)
    ⟨⟨"docs", "_build/html", ⟨0⟩, []⟩, ⟨".venv/bin/python"⟩, ⟨"nvim"⟩, {}⟩
    ⟨none, false, none⟩ 4000 "x"
  have h2 := start_result_handling "s" "/proj" (by decide)
    ⟨⟨"docs", "_build/html", ⟨0⟩, []⟩, ⟨".venv/bin/python"⟩, ⟨"nvim"⟩, {}⟩
    ⟨some 1, true, none⟩ 4000 "x"
  exact ⟨h.1, h2.2.2.2.1 (Except.error "x") none⟩

/-- C6: every chunk of user input is forwarded as a `pty_write` command with
the session id and the data passed through verbatim, and a failed write is
caught and logged — the result channel is never an exception. -/
theorem pty_write_forwards_verbatim (sessionId data : String)
    (r : Except String Unit) :
    (sendData sessionId data r).1 = ⟨sessionId, data⟩ ∧
    (∀ e, (sendData sessionId data r).2 ≠ Except.error e) ∧
    (∀ e, r = Except.error e →
      (sendData sessionId data r).2 = Except.ok [⟨"Failed to write to PTY:", e⟩]) := by
  refine ⟨rfl, ?_, ?_⟩
  · intro e
    cases r <;> simp [sendData]
  · intro e he
    subst he
    rfl

/-- Witness for C6 at a concrete failing write. -/
theorem pty_write_forwards_verbatim_witness :
    (sendData "s" "ls -la" (Except.error "closed")).1 = ⟨"s", "ls -la"⟩ ∧
    (sendData "s" "ls -la" (Except.error "closed")).2 =
      Except.ok [⟨"Failed to write to PTY:", "closed"⟩] := by
  have h := pty_write_forwards_verbatim "s" "ls -la" (Except.error "closed")
  exact ⟨h.1, h.2.2 "closed" rfl⟩

/-- C7: a matching `pty_exit` appends an inline notice containing the exit
code to the terminal surface and fires `onExit` with that code; the App's
`handleExit` marks the session exited; with `exited` true the right pane
renders the ended-session placeholder instead of the terminal (whose unmount
cleanup issues the single `kill_terminal` for its session id). -/
theorem pty_exit_notice_and_teardown (sessionId pp : String) (t : TermState)
    (code : Int) (s : AppState) :
    handlePtyExit sessionId t sessionId code =
      { t with writes := t.writes ++ [exitNotice code],
               exitCalls := t.exitCalls ++ [code] } ∧
    (∃ pre post, exitNotice code = pre ++ toString code ++ post) ∧
    handleExit code s = { s with exited := true } ∧
    renderRightPane (some pp) true sessionId =
      RightPane.placeholder "Terminal session ended" ∧
    terminalCleanupCmds sessionId = [⟨sessionId⟩] := by
  refine ⟨?_, ⟨"\r\n[Process exited with code ", "]\r\n", rfl⟩, rfl, ?_, rfl⟩
  · simp [handlePtyExit]
  · simp [renderRightPane]

/-- C10: the preview URL is `some` exactly when the recorded port is set and
nonzero, in which case it is `http://127.0.0.1:` followed by the port; a
recorded port of literally 0 yields no preview URL. -/
theorem preview_url_iff_nonzero_port (st : SphinxState) :
    ((previewUrl st).isSome ↔ ∃ p, st.port = some p ∧ p ≠ 0) ∧
    (∀ p, st.port = some p → p ≠ 0 →
      previewUrl st = some ("http://127.0.0.1:" ++ toString p)) ∧
    previewUrl { st with port := some 0 } = none := by
  refine ⟨?_, ?_, rfl⟩
  · cases hp : st.port with
    | none => simp [previewUrl, hp]
    | some p =>
      by_cases h0 : p = 0
      · subst h0
        simp [previewUrl, hp]
      · simp [previewUrl, hp, h0]
  · intro p hp h0
    simp [previewUrl, hp, h0]

/-- Witness for C10 at concrete ports 8080 and 0. -/
theorem preview_url_iff_nonzero_port_witness :
    previewUrl ⟨some 8080, true, none⟩ = some ("http://127.0.0.1:" ++ toString 8080) ∧
    previewUrl ⟨some 0, true, none⟩ = none := by
  have h := preview_url_iff_nonzero_port ⟨some 8080, true, none⟩
  exact ⟨h.2.1 8080 rfl (by decide), h.2.2⟩

/-- C8 counterexample: the empty string is a non-null project path, yet the
effect's truthiness guard `if (projectPath)` rejects it, so no fresh session
id is minted and the exited flag is not reset. -/
theorem session_mint_skips_empty_path :
    onProjectPathChange (some "") "fresh-uuid" ⟨"old-uuid", true⟩ = ⟨"old-uuid", true⟩ ∧
    ¬ ((onProjectPathChange (some "") "fresh-uuid" ⟨"old-uuid", true⟩).sessionId ≠ "old-uuid" ∧
       (onProjectPathChange (some "") "fresh-uuid" ⟨"old-uuid", true⟩).exited = false) := by
  decide

/-- C8 amended: whenever the project path changes to a truthy (non-null,
non-empty) value, the App stores the freshly minted UUID — distinct from the
previous session id whenever the UUID generator is collision-free — as the new
session id and resets the exited flag to false. -/
theorem session_mint_on_path_change (pp newUuid : String) (hpp : pp ≠ "")
    (s : AppState) (hfresh : newUuid ≠ s.sessionId) :
    (onProjectPathChange (some pp) newUuid s).sessionId = newUuid ∧
    (onProjectPathChange (some pp) newUuid s).sessionId ≠ s.sessionId ∧
    (onProjectPathChange (some pp) newUuid s).exited = false := by
  have hstep : onProjectPathChange (some pp) newUuid s = ⟨newUuid, false⟩ := by
    simp [onProjectPathChange, hpp]
  rw [hstep]
  exact ⟨rfl, hfresh, rfl⟩

/-- Witness for C8 at a concrete path change. -/
theorem session_mint_on_path_change_witness :
    (onProjectPathChange (some "/proj") "uuid-2" ⟨"uuid-1", true⟩).sessionId = "uuid-2" ∧
    (onProjectPathChange (some "/proj") "uuid-2" ⟨"uuid-1", true⟩).exited = false := by
  have h := session_mint_on_path_change "/proj" "uuid-2" (by decide) ⟨"uuid-1", true⟩ (by decide)
  exact ⟨h.1, h.2.2⟩

/-- C9: `mergeConfig` is the identity when no override is given, and otherwise
is field-wise override-biased: each leaf (`sphinx.source_dir`,
`sphinx.build_dir`, `sphinx.server.port`, `sphinx.extra_args`,
`python.interpreter`, `editor.command`, `terminal.shell`) of the result equals
the override's value when it is defined and the base's value otherwise. -/
theorem merge_config_override_biased (base : ProjectConfig) (o : ConfigOverride) :
    mergeConfig base none = base ∧
    (∀ v, o.sphinx.bind SphinxOverride.source_dir = some v →
      (mergeConfig base (some o)).sphinx.source_dir = v) ∧
    (o.sphinx.bind SphinxOverride.source_dir = none →
      (mergeConfig base (some o)).sphinx.source_dir = base.sphinx.source_dir) ∧
    (∀ v, o.sphinx.bind SphinxOverride.build_dir = some v →
      (mergeConfig base (some o)).sphinx.build_dir = v) ∧
    (o.sphinx.bind SphinxOverride.build_dir = none →
      (mergeConfig base (some o)).sphinx.build_dir = base.sphinx.build_dir) ∧
    (∀ v, (o.sphinx.bind SphinxOverride.server).bind ServerOverride.port = some v →
      (mergeConfig base (some o)).sphinx.server.port = v) ∧
    ((o.sphinx.bind SphinxOverride.server).bind ServerOverride.port = none →
      (mergeConfig base (some o)).sphinx.server.port = base.sphinx.server.port) ∧
    (∀ v, o.sphinx.bind SphinxOverride.extra_args = some v →
      (mergeConfig base (some o)).sphinx.extra_args = v) ∧
    (o.sphinx.bind SphinxOverride.extra_args = none →
      (mergeConfig base (some o)).sphinx.extra_args = base.sphinx.extra_args) ∧
    (∀ v, o.python.bind PythonOverride.interpreter = some v →
      (mergeConfig base (some o)).python.interpreter = v) ∧
    (o.python.bind PythonOverride.interpreter = none →
      (mergeConfig base (some o)).python.interpreter = base.python.interpreter) ∧
    (∀ v, o.editor.bind EditorOverride.command = some v →
      (mergeConfig base (some o)).editor.command = v) ∧
    (o.editor.bind EditorOverride.command = none →
      (mergeConfig base (some o)).editor.command = base.editor.command) ∧
    (∀ v, o.terminal.bind TerminalOverride.shell = some v →
      (mergeConfig base (some o)).terminal.shell = some v) ∧
    (o.terminal.bind TerminalOverride.shell = none →
      (mergeConfig base (some o)).terminal.shell = base.terminal.shell) := by
  refine ⟨rfl, ?_, ?_, ?_, ?_, ?_, ?_, ?_, ?_, ?_, ?_, ?_, ?_, ?_, ?_⟩ <;>
    first
      | (intro v h
         simp [mergeConfig, coalesce, coalesceOpt, h])
      | (intro h
         simp [mergeConfig, coalesce, coalesceOpt, h])

/-- Witness for C9: a concrete base merged with an override that defines
`sphinx.source_dir`, `sphinx.server.port` and `terminal.shell` but leaves
`sphinx.build_dir` undefined. -/
theorem merge_config_override_biased_witness :
    mergeConfig ⟨⟨"docs", "_build/html", ⟨0⟩, []⟩, ⟨"py"⟩, ⟨"nvim"⟩, {}⟩ none =
      ⟨⟨"docs", "_build/html", ⟨0⟩, []⟩, ⟨"py"⟩, ⟨"nvim"⟩, {}⟩ ∧
    (mergeConfig ⟨⟨"docs", "_build/html", ⟨0⟩, []⟩, ⟨"py"⟩, ⟨"nvim"⟩, {}⟩
      (some { sphinx := some { source_dir := some "src2", server := some { port := some 9 } },
              terminal := some { shell := some "zsh" } })).sphinx.source_dir = "src2" ∧
    (mergeConfig ⟨⟨"docs", "_build/html", ⟨0⟩, []⟩, ⟨"py"⟩, ⟨"nvim"⟩, {}⟩
      (some { sphinx := some { source_dir := some "src2", server := some { port := some 9 } },
              terminal := some { shell := some "zsh" } })).sphinx.build_dir = "_build/html" ∧
    (mergeConfig ⟨⟨"docs", "_build/html", ⟨0⟩, []⟩, ⟨"py"⟩, ⟨"nvim"⟩, {}⟩
      (some { sphinx := some { source_dir := some "src2", server := some { port := some 9 } },
              terminal := some { shell := some "zsh" } })).sphinx.server.port = 9 ∧
    (mergeConfig ⟨⟨"docs", "_build/html", ⟨0⟩, []⟩, ⟨"py"⟩, ⟨"nvim"⟩, {}⟩
      (some { sphinx := some { source_dir := some "src2", server := some { port := some 9 } },
              terminal := some { shell := some "zsh" } })).terminal.shell = some "zsh" := by
  have h := merge_config_override_biased
    ⟨⟨"docs", "_build/html", ⟨0⟩, []⟩, ⟨"py"⟩, ⟨"nvim"⟩, {}⟩
    { sphinx := some { source_dir := some "src2", server := some { port := some 9 } },
      terminal := some { shell := some "zsh" } }
  exact ⟨h.1, h.2.1 "src2" rfl, h.2.2.2.2.1 rfl, h.2.2.2.2.2.1 9 rfl,
    h.2.2.2.2.2.2.2.2.2.2.2.2.2.1 "zsh" rfl⟩

/-- C2: a burst of resize requests, each arriving strictly within the 100 ms
window of its predecessor, yields exactly one `pty_resize` command carrying the
most recent geometry, issued when the last request's window elapses — strictly
after that request, never instantly. -/
theorem resize_debounce_burst (sessionId : String) (r : ResizeReq)
    (reqs : List ResizeReq) (h : burstWithin (r :: reqs) = true) :
    debounceRun sessionId (r :: reqs) =
      [{ sessionId := sessionId, time := (reqs.getLastD r).time + 100,
         cols := (reqs.getLastD r).cols, rows := (reqs.getLastD r).rows }] ∧
    (reqs.getLastD r).time < (reqs.getLastD r).time + 100 := by
  have main : ∀ (rs : List ResizeReq) (r0 : ResizeReq),
      burstWithin (r0 :: rs) = true →
      debounceRun sessionId (r0 :: rs) =
        [{ sessionId := sessionId, time := (rs.getLastD r0).time + 100,
           cols := (rs.getLastD r0).cols, rows := (rs.getLastD r0).rows }] := by
    intro rs
    induction rs with
    | nil =>
      intro r0 _
      rfl
    | cons r2 rest ih =>
      intro r0 h0
      simp only [burstWithin, Bool.and_eq_true, decide_eq_true_eq] at h0
      have step : debounceRun sessionId (r0 :: r2 :: rest) =
          debounceRun sessionId (r2 :: rest) := by
        simp [debounceRun, h0.1]
      rw [step, ih r2 h0.2, List.getLastD_cons r0 r2 rest]
  exact ⟨main reqs r h, by omega⟩

/-- Witness for C2: three requests at 0, 50 and 120 ms (each within 100 ms of
the previous) collapse to one `pty_resize` at 220 ms with the last geometry. -/
theorem resize_debounce_burst_witness :
    burstWithin [⟨0, 80, 24⟩, ⟨50, 100, 30⟩, ⟨120, 120, 40⟩] = true ∧
    debounceRun "s" [⟨0, 80, 24⟩, ⟨50, 100, 30⟩, ⟨120, 120, 40⟩] =
      [⟨"s", 220, 120, 40⟩] := by
  have h := resize_debounce_burst "s" ⟨0, 80, 24⟩ [⟨50, 100, 30⟩, ⟨120, 120, 40⟩]
    (by decide)
  exact ⟨by decide, h.1⟩

end Orthrus
